import Mathlib

/-!
Shallow embedding of the request handlers of the remix-ginnan-stack web
application: the user-detail route (loader in `src/unnamed/part_000`), the
profile-edit route (`src/app/routes/users+/$userId_.edit.tsx`, whose file
also carries `auth.server.ts` with `signInWithGoogle`), and the signup route
(`src/unnamed/part_001`).  JavaScript values decoded from JSON bodies are
modelled by the inductive `Json`; handlers are pure functions from their
request-scoped inputs (path params, resolved identity, backend payloads,
session-resolver headers) to a `HandlerResult` paired with the list of
backend API calls they issue.
-/

/-- A JavaScript value as obtained from decoding a JSON body, plus `undefined`
for the `undefined` produced by accessing a missing property.  Numbers are
modelled as integers (no claim involves fractional values). -/
inductive Json where
  | undefined
  | null
  | bool (b : Bool)
  | num (n : Int)
  | str (s : String)
  | arr (elems : List Json)
  | obj (fields : List (String × Json))

/-- JavaScript `typeof`: `null`, arrays and plain objects all report
`"object"`. -/
def jsTypeof : Json → String
  | .undefined => "undefined"
  | .null => "object"
  | .bool _ => "boolean"
  | .num _ => "number"
  | .str _ => "string"
  | .arr _ => "object"
  | .obj _ => "object"

/-- Whether the value is JavaScript `null`. -/
def Json.isNull : Json → Bool
  | .null => true
  | _ => false

/-- Membership of a key among an object literal's fields. -/
def hasKey (fields : List (String × Json)) (k : String) : Bool :=
  fields.any (fun f => f.1 == k)

/-- JavaScript property access `j[k]`: `undefined` when the key is missing.
The handlers only apply it to values already checked to be objects. -/
def getField (j : Json) (k : String) : Json :=
  match j with
  | .obj fields =>
    match fields.find? (fun f => f.1 == k) with
    | some f => f.2
    | none => .undefined
  | _ => .undefined

/-- The message of the `TypeError` raised by the `in` operator on a
non-object operand. -/
def jsInTypeErrorMsg : String :=
  "TypeError: Cannot use 'in' operator to search for 'error' in null"

/-- The JavaScript `in` operator: key membership on objects (and, for
arrays, membership among index properties — a non-numeric key is never
present), a thrown `TypeError` on any primitive or `null`/`undefined`
operand. -/
def jsInOp (k : String) (j : Json) : Except String Bool :=
  match j with
  | .obj fields => .ok (hasKey fields k)
  | .arr _ => .ok false
  | _ => .error jsInTypeErrorMsg

mutual

/-- JavaScript string coercion of a value, as performed by a template
literal with an interpolated expression.  Arrays stringify by joining
their elements with commas, `null` and `undefined` elements joining as the
empty string. -/
def jsStringify : Json → String
  | .undefined => "undefined"
  | .null => "null"
  | .bool true => "true"
  | .bool false => "false"
  | .num n => toString n
  | .str s => s
  | .arr elems => String.intercalate "," (jsStringifyElems elems)
  | .obj _ => "[object Object]"

def jsStringifyElems : List Json → List String
  | [] => []
  | x :: xs =>
    (match x with
     | .null => ""
     | .undefined => ""
     | x => jsStringify x) :: jsStringifyElems xs

end

/-- The `message` a JavaScript `Error` constructed as `new Error(v)`
carries: the string coercion of `v`, except that `undefined` yields the
empty message. -/
def jsErrorMessage (v : Json) : String :=
  match v with
  | .undefined => ""
  | v => jsStringify v

/-- JavaScript strict equality `v === s` against a string literal. -/
def jsStrictEqStr (v : Json) (s : String) : Bool :=
  match v with
  | .str t => t == s
  | _ => false

/-- `isErrorResponse` of the user-detail route (src/unnamed/part_000,
lines 46-48): `"error" in response`.  The `in` operator throws a
`TypeError` on a non-object operand, so the classifier is partial over
JSON payloads; the `Except` models the throw. -/
def isErrorResponse (response : Json) : Except String Bool :=
  jsInOp "error" response

/-- `isApiError` of the profile-edit route ($userId_.edit.tsx, lines
30-32): `typeof response === "object" && response !== null &&
"code" in response`.  The two guards make the `in` check total. -/
def isApiError (response : Json) : Bool :=
  jsTypeof response == "object" && !response.isNull &&
    (match response with
     | .obj fields => hasKey fields "code"
     | _ => false)

example : isApiError Json.null = false := by decide
example : isApiError (Json.obj [("code", Json.str "NotFoundError")]) = true := rfl
example : isErrorResponse Json.null = .error jsInTypeErrorMsg := rfl
example : isErrorResponse (Json.obj [("error", Json.str "x")]) = .ok true := rfl

/-- The authenticated principal resolved from the session by
`client.auth.getUser()`; a request may be anonymous (`Option Identity`). -/
structure Identity where
  id : String

/-- A backend API call issued through the Hono client, with the data the
call carries.  `getPosts` records the query parameters attached to the
request (`$get({ param })` with no `query` member attaches none). -/
inductive ApiCall where
  | getUser (userId : String)
  | getPosts (userId : String) (query : List (String × String))
  | patchUser (userId : String) (name : Option String) (bio : Option String)

/-- The outcome a Remix handler produces: a returned plain object (which
the framework serialises with no custom headers unless stated), a
`redirect(path, { headers })`, or a thrown `Error` with its message. -/
inductive HandlerResult where
  | ret (data : Json) (headers : List (String × String))
  | redirectTo (path : String) (headers : List (String × String))
  | thrown (msg : String)

/-- The headers of the response a handler outcome turns into (a thrown
error carries none of the handler's own headers). -/
def resultHeaders : HandlerResult → List (String × String)
  | .ret _ headers => headers
  | .redirectTo _ headers => headers
  | .thrown _ => []

/-- Lines 82-87 of the user-detail loader (src/unnamed/part_000): the
`URLSearchParams` built from the resolved identity — `publicOnly=true`
when anonymous, `currentUserId=<id>` when authenticated. -/
def userDetailSearchParams (user : Option Identity) : List (String × String) :=
  match user with
  | none => [("publicOnly", "true")]
  | some u => [("currentUserId", u.id)]

/-- The user-detail loader (src/unnamed/part_000, lines 60-99), as a
function of the path parameter, the identity resolved by the session
client, the two decoded backend payloads, and the session-resolver
headers (destructured away by the source: only `{ client }` is taken from
`createSupabaseServerClient`).  Returns the handler outcome together with
the list of backend calls issued.  Note the source builds `searchParams`
but issues the posts fetch with `{ param: { userId } }` only, so the
issued `getPosts` call carries an empty query. -/
def userDetailLoader (paramsUserId : Option String) (user : Option Identity)
    (userPayload postsPayload : Json)
    (resolverHeaders : List (String × String)) : HandlerResult × List ApiCall :=
  match paramsUserId with
  | none => (.thrown "User ID is required", [])
  | some userId =>
    match isErrorResponse userPayload with
    | .error e => (.thrown e, [.getUser userId])
    | .ok true => (.thrown "User not found", [.getUser userId])
    | .ok false =>
      let searchParams := userDetailSearchParams user
      let calls := [ApiCall.getUser userId, ApiCall.getPosts userId []]
      match isErrorResponse postsPayload with
      | .error e => (.thrown e, calls)
      | .ok true =>
        (.thrown ("Failed to fetch posts: " ++ jsStringify (getField postsPayload "error")),
         calls)
      | .ok false =>
        (.ret (Json.obj [("pageUser", userPayload), ("postsData", postsPayload)]) [],
         calls)

/-- The profile-edit loader ($userId_.edit.tsx, lines 34-67): requires the
resolved identity to equal the path `userId` before any backend call; on a
`NotFoundError` payload redirects to `/complete-profile` with a
`Set-Cookie` header equal to the request's `Cookie` header (`|| ""` when
absent); on any other error payload throws `Error(userData.message)`. -/
def editLoader (paramsUserId : Option String) (user : Option Identity)
    (requestCookie : Option String) (userPayload : Json)
    (resolverHeaders : List (String × String)) : HandlerResult × List ApiCall :=
  match paramsUserId with
  | none => (.thrown "User ID is required", [])
  | some userId =>
    match user with
    | none => (.thrown "Unauthorized", [])
    | some u =>
      if u.id ≠ userId then (.thrown "Unauthorized", [])
      else
        if isApiError userPayload then
          if jsStrictEqStr (getField userPayload "code") "NotFoundError" then
            (.redirectTo "/complete-profile" [("Set-Cookie", requestCookie.getD "")],
             [.getUser userId])
          else
            (.thrown (jsErrorMessage (getField userPayload "message")), [.getUser userId])
        else
          (.ret (Json.obj [("pageUser", userPayload)]) [], [.getUser userId])

/-- What the `$patch` call of the profile-edit action comes back with:
either a transport-level exception thrown by `$patch` or by
`response.json()` (`some msg` when the thrown value is an `Error` with
that message, `none` for a non-`Error` throw), or a response with its
`ok` flag and decoded JSON body. -/
inductive PatchOutcome where
  | exn (errMsg : Option String)
  | resp (ok : Bool) (payload : Json)

/-- The profile-edit action ($userId_.edit.tsx, lines 69-113): reads the
form fields, requires the resolved identity to equal the path `userId`,
then issues the PATCH inside a try/catch.  A non-ok response or an ok
response whose body classifies as an API error returns
`{ error: responseData.message }` (or a fixed message when the non-ok body
does not classify); success redirects to `/users/<userId>`; a caught
exception returns `{ error }` with the exception's message or the fixed
fallback. -/
def editAction (paramsUserId : Option String) (user : Option Identity)
    (name bio : Option String) (outcome : PatchOutcome)
    (resolverHeaders : List (String × String)) : HandlerResult × List ApiCall :=
  match paramsUserId with
  | none => (.thrown "User ID is required", [])
  | some userId =>
    match user with
    | none => (.thrown "Unauthorized", [])
    | some u =>
      if u.id ≠ userId then (.thrown "Unauthorized", [])
      else
        let calls := [ApiCall.patchUser userId name bio]
        match outcome with
        | .exn errMsg =>
          (.ret (Json.obj [("error", Json.str (errMsg.getD "Failed to update profile"))]) [],
           calls)
        | .resp ok payload =>
          if !ok then
            if isApiError payload then
              (.ret (Json.obj [("error", getField payload "message")]) [], calls)
            else
              (.ret (Json.obj [("error", Json.str "Failed to update profile")]) [], calls)
          else
            if isApiError payload then
              (.ret (Json.obj [("error", getField payload "message")]) [], calls)
            else
              (.redirectTo ("/users/" ++ userId) [], calls)

/-- The record `signInWithGoogle` (auth.server.ts) returns.  `data` is the
raw OAuth data passed through from the provider: `none` when the provider
returned `data: null`, otherwise `some url?` where `url?` is its `url`
field (`none` for a null/absent url). -/
structure SignInWithGoogleResult where
  ok : Bool
  data : Option (Option String)
  error : String
  headers : List (String × String)

/-- `signInWithGoogle` (auth.server.ts, in the same source file as the
edit route): wraps `supabase.client.auth.signInWithOAuth`, given the
provider's `data`/`error` and the supabase client's session headers.
`ok` is `!error && data`; `error` is the provider error's message only
when `error && !data`, else the empty string; the headers are passed
through. -/
def signInWithGoogle (sbData : Option (Option String)) (sbError : Option String)
    (supabaseHeaders : List (String × String)) : SignInWithGoogleResult :=
  { ok := sbError.isNone && sbData.isSome
    data := sbData
    error :=
      match sbError, sbData with
      | some m, none => m
      | _, _ => ""
    headers := supabaseHeaders }

/-- JavaScript `data?.url`: `undefined` (here `none`) unless `data` is a
present object with a `url` value. -/
def dataUrl (d : Option (Option String)) : Option String :=
  match d with
  | some (some u) => some u
  | _ => none

/-- The signup action (src/unnamed/part_001, lines 5-19): when the posted
`provider` field is `"google"`, calls `signInWithGoogle` and redirects to
`data.url` with the returned headers when `!error && data?.url` holds
(a present non-empty url and an empty error string); otherwise returns
`{ error: error || "アカウント作成に失敗しました" }`.  Any other provider
value returns `{ error: "Invalid provider" }`. -/
def signupAction (provider : Option String) (sbData : Option (Option String))
    (sbError : Option String)
    (supabaseHeaders : List (String × String)) : HandlerResult :=
  if provider = some "google" then
    let r := signInWithGoogle sbData sbError supabaseHeaders
    if r.error == "" && (dataUrl r.data).getD "" != "" then
      .redirectTo ((dataUrl r.data).getD "") r.headers
    else
      .ret (Json.obj [("error",
        Json.str (if r.error == "" then "アカウント作成に失敗しました" else r.error))]) []
  else
    .ret (Json.obj [("error", Json.str "Invalid provider")]) []

example :
    signupAction (some "google") (some (some "https://accounts.google.com/o/oauth2")) none
      [("Set-Cookie", "sb=1")] =
    .redirectTo "https://accounts.google.com/o/oauth2" [("Set-Cookie", "sb=1")] := rfl
example :
    signupAction (some "github") none none [] =
    .ret (Json.obj [("error", Json.str "Invalid provider")]) [] := rfl

/-- C1 (code slip in the source): on an anonymous request to `/users/123`
with well-formed payloads, the loader builds the search parameters
`publicOnly=true` (lines 82-87) but the posts fetch it actually issues
(lines 89-91) carries an empty query — the built parameters are never
attached to the request, contradicting the claim that the fetch carries
the authorization-dependent query parameter. -/
theorem c1_posts_fetch_drops_built_query :
    (userDetailLoader (some "123") none
        (Json.obj [("id", Json.str "123"), ("name", Json.str "Aya")])
        (Json.arr []) []).2 =
      [ApiCall.getUser "123", ApiCall.getPosts "123" []]
    ∧ userDetailSearchParams none = [("publicOnly", "true")]
    ∧ ([] : List (String × String)) ≠ [("publicOnly", "true")] :=
  ⟨rfl, rfl, by decide⟩

/-- C2 (counterexample): on a successful render of the user-detail route,
the session-resolver headers (here a refreshed session cookie) are absent
from the response: the loader returns a bare object with no headers, so
the claim that every handler merges the resolver's cookie headers into
its response on every path fails at this input. -/
theorem c2_resolver_headers_not_merged_counterexample :
    resultHeaders (userDetailLoader (some "123") none
        (Json.obj [("id", Json.str "123"), ("name", Json.str "Aya")])
        (Json.arr [])
        [("Set-Cookie", "sb-access-token=refreshed")]).1 = []
    ∧ [("Set-Cookie", "sb-access-token=refreshed")] ≠ ([] : List (String × String)) :=
  ⟨rfl, by decide⟩

/-- C2 (amended): the user-detail loader, the profile-edit loader and the
profile-edit action ignore the session-resolver headers entirely (their
outcome is independent of them, so the headers are never merged), and the
signup action forwards the supabase headers only on its success-redirect
path, returning header-less responses on every other path. -/
theorem c2_amended_headers_only_on_signup_success :
    (∀ pid user up pp hs,
      userDetailLoader pid user up pp hs = userDetailLoader pid user up pp [])
    ∧ (∀ pid user ck up hs, editLoader pid user ck up hs = editLoader pid user ck up [])
    ∧ (∀ pid user nm bio outc hs,
      editAction pid user nm bio outc hs = editAction pid user nm bio outc [])
    ∧ (∀ p d e hs, resultHeaders (signupAction p d e hs) =
        if p = some "google" then
          if (signInWithGoogle d e hs).error == "" && (dataUrl d).getD "" != "" then hs
          else []
        else []) := by
  refine ⟨fun _ _ _ _ _ => rfl, fun _ _ _ _ _ => rfl, fun _ _ _ _ _ _ => rfl, ?_⟩
  intro p d e hs
  by_cases hp : p = some "google"
  · subst hp
    rcases d with _ | (_ | s)
    · rcases e with _ | m <;>
        simp [signupAction, signInWithGoogle, dataUrl, resultHeaders]
    · rcases e with _ | m <;>
        simp [signupAction, signInWithGoogle, dataUrl, resultHeaders]
    · rcases e with _ | m <;> by_cases hsz : s = "" <;>
        simp [signupAction, signInWithGoogle, dataUrl, resultHeaders, hsz]
  · simp [signupAction, hp, resultHeaders]

/-- C3 (counterexample): the two routes use two different classifiers and
each detects only one error shape: the user-detail route's
`isErrorResponse` does not classify a structured `{code, message}` payload
as a failure, and the edit route's `isApiError` does not classify a
generic `{error}` payload as a failure — so no single classification
function supporting both shapes classifies every payload, as the claim
states. -/
theorem c3_two_divergent_classifiers_counterexample :
    isErrorResponse
        (Json.obj [("code", Json.str "ValidationError"), ("message", Json.str "name required")]) =
      .ok false
    ∧ isApiError
        (Json.obj [("code", Json.str "ValidationError"), ("message", Json.str "name required")]) =
      true
    ∧ isApiError (Json.obj [("error", Json.str "db down")]) = false
    ∧ isErrorResponse (Json.obj [("error", Json.str "db down")]) = .ok true :=
  ⟨rfl, rfl, rfl, rfl⟩

/-- C3 (amended): the repository has two per-route classification
functions, not one: `isErrorResponse` classifies an object payload as a
failure exactly when it has an `error` field, `isApiError` exactly when
it has a `code` field (both by capability check over the present fields,
not a fixed schema), and neither detects the other route's error shape. -/
theorem c3_amended_per_route_classifiers :
    (∀ fields, isErrorResponse (Json.obj fields) = .ok (hasKey fields "error"))
    ∧ (∀ fields, isApiError (Json.obj fields) = hasKey fields "code")
    ∧ (∀ s, isApiError (Json.obj [("error", Json.str s)]) = false)
    ∧ (∀ s m,
      isErrorResponse (Json.obj [("code", Json.str s), ("message", Json.str m)]) = .ok false) :=
  ⟨fun _ => rfl, fun _ => rfl, fun _ => rfl, fun _ _ => rfl⟩

/-- C4: on the self-only edit route, whenever no identity is resolved or
the resolved identity's id differs from the path `userId`, both the loader
and the action throw "Unauthorized" and the list of backend API calls they
issue is empty — the authorization check strictly precedes any
data-fetching or mutating call. -/
theorem c4_unauthorized_rejects_before_any_call (userId : String)
    (user : Option Identity) (cookie : Option String) (userPayload : Json)
    (name bio : Option String) (outcome : PatchOutcome)
    (hs : List (String × String))
    (hauth : ∀ u, user = some u → u.id ≠ userId) :
    editLoader (some userId) user cookie userPayload hs = (.thrown "Unauthorized", [])
    ∧ editAction (some userId) user name bio outcome hs = (.thrown "Unauthorized", []) := by
  cases user with
  | none => exact ⟨rfl, rfl⟩
  | some u =>
    have h := hauth u rfl
    exact ⟨by simp [editLoader, h], by simp [editAction, h]⟩

/-- C4 witness: a request authenticated as user "456" to the edit route of
user "123" is rejected with "Unauthorized" by both handlers with zero
backend calls. -/
theorem c4_unauthorized_rejects_before_any_call_witness :
    editLoader (some "123") (some ⟨"456"⟩) none Json.null [] =
      (.thrown "Unauthorized", [])
    ∧ editAction (some "123") (some ⟨"456"⟩) (some "Aya") (some "hi")
        (.resp true Json.null) [] =
      (.thrown "Unauthorized", []) :=
  c4_unauthorized_rejects_before_any_call "123" (some ⟨"456"⟩) none Json.null
    (some "Aya") (some "hi") (.resp true Json.null) []
    (by intro u h; cases h; decide)

/-- C5: when the edit loader passes its self-only check and the backend
payload classifies as an API error with code "NotFoundError", the result
is a redirect to `/complete-profile` whose `Set-Cookie` header is exactly
the request's `Cookie` header. -/
theorem c5_notfound_redirects_with_cookie (userId c : String) (userPayload : Json)
    (hs : List (String × String))
    (herr : isApiError userPayload = true)
    (hcode : jsStrictEqStr (getField userPayload "code") "NotFoundError" = true) :
    editLoader (some userId) (some ⟨userId⟩) (some c) userPayload hs =
      (.redirectTo "/complete-profile" [("Set-Cookie", c)], [ApiCall.getUser userId]) := by
  simp [editLoader, herr, hcode]

/-- C5 witness: user "123" loading their own edit page over a backend
`{code: "NotFoundError"}` payload is redirected to `/complete-profile`
with the request's cookie "sb=tok" as the `Set-Cookie` header. -/
theorem c5_notfound_redirects_with_cookie_witness :
    editLoader (some "123") (some ⟨"123"⟩) (some "sb=tok")
        (Json.obj [("code", Json.str "NotFoundError"),
                   ("message", Json.str "User not found")]) [] =
      (.redirectTo "/complete-profile" [("Set-Cookie", "sb=tok")],
       [ApiCall.getUser "123"]) :=
  c5_notfound_redirects_with_cookie "123" "sb=tok" _ [] rfl rfl

/-- C6 (counterexample): a user-detail profile fetch failing with payload
`{error: "db down"}` makes the loader throw the fixed message
"User not found", which is not the payload's message — so not every
backend failure on a read route surfaces the failure's message, as the
claim states. -/
theorem c6_profile_fetch_failure_message_lost_counterexample :
    (userDetailLoader (some "123") none (Json.obj [("error", Json.str "db down")])
        (Json.arr []) []).1 = .thrown "User not found"
    ∧ "User not found" ≠ "db down" :=
  ⟨rfl, by decide⟩

/-- C6 (amended): on read routes a backend failure is raised as a
page-level failure only when the route's own classifier detects it.  The
user-detail loader raises an `{error}`-shaped profile-fetch failure with
the fixed message "User not found" (discarding the payload's message) and
raises an `{error}`-shaped posts-fetch failure surfacing the payload's
message inside "Failed to fetch posts: ..."; but a `{code, message}`-shaped
failure on its profile fetch goes undetected by `isErrorResponse` and is
rendered as `pageUser` data rather than raised.  The edit loader raises
every API-error payload other than a NotFoundError, surfacing the
payload's `message`. -/
theorem c6_amended_classifier_gated_raises :
    (∀ uid user up pp hs, isErrorResponse up = .ok true →
      (userDetailLoader (some uid) user up pp hs).1 = .thrown "User not found")
    ∧ (∀ uid user up pp hs,
      isErrorResponse up = .ok false → isErrorResponse pp = .ok true →
      (userDetailLoader (some uid) user up pp hs).1 =
        .thrown ("Failed to fetch posts: " ++ jsStringify (getField pp "error")))
    ∧ (∀ uid user up pp hs,
      isApiError up = true → isErrorResponse up = .ok false →
      isErrorResponse pp = .ok false →
      (userDetailLoader (some uid) user up pp hs).1 =
        .ret (Json.obj [("pageUser", up), ("postsData", pp)]) [])
    ∧ (∀ uid ck up hs, isApiError up = true →
      jsStrictEqStr (getField up "code") "NotFoundError" = false →
      (editLoader (some uid) (some ⟨uid⟩) ck up hs).1 =
        .thrown (jsErrorMessage (getField up "message"))) := by
  refine ⟨?_, ?_, ?_, ?_⟩
  · intro uid user up pp hs hup
    simp [userDetailLoader, hup]
  · intro uid user up pp hs hup hpp
    simp [userDetailLoader, hup, hpp]
  · intro uid user up pp hs _ hup hpp
    simp [userDetailLoader, hup, hpp]
  · intro uid ck up hs herr hcode
    simp [editLoader, herr, hcode]

/-- C6 amended witness: concrete instances of the four read-route failure
paths — an `{error}`-shaped profile fetch failure throws "User not found",
a posts fetch failing with `{error: "boom"}` throws
"Failed to fetch posts: boom", a `{code: "InternalError",
message: "db down"}` profile-fetch failure is rendered as `pageUser` data
instead of being raised, and an edit-loader fetch failing with
`{code: "ValidationError", message: "bad"}` throws "bad". -/
theorem c6_amended_classifier_gated_raises_witness :
    (userDetailLoader (some "123") none (Json.obj [("error", Json.str "db down")])
        (Json.arr []) []).1 = .thrown "User not found"
    ∧ (userDetailLoader (some "123") none (Json.obj [("id", Json.str "123")])
        (Json.obj [("error", Json.str "boom")]) []).1 =
      .thrown "Failed to fetch posts: boom"
    ∧ (userDetailLoader (some "123") none
        (Json.obj [("code", Json.str "InternalError"),
                   ("message", Json.str "db down")]) (Json.arr []) []).1 =
      .ret (Json.obj [("pageUser",
              Json.obj [("code", Json.str "InternalError"),
                        ("message", Json.str "db down")]),
            ("postsData", Json.arr [])]) []
    ∧ (editLoader (some "123") (some ⟨"123"⟩) none
        (Json.obj [("code", Json.str "ValidationError"),
                   ("message", Json.str "bad")]) []).1 = .thrown "bad" :=
  ⟨c6_amended_classifier_gated_raises.1 "123" none _ (Json.arr []) [] rfl,
   c6_amended_classifier_gated_raises.2.1 "123" none _ _ [] rfl rfl,
   c6_amended_classifier_gated_raises.2.2.1 "123" none _ (Json.arr []) [] rfl rfl rfl,
   c6_amended_classifier_gated_raises.2.2.2 "123" none _ [] rfl rfl⟩

/-- C7: any transport-level exception raised during the profile-edit
mutation's backend call is caught: the action returns the structured
`{error}` object carrying the exception's message (or the fixed fallback
"Failed to update profile" when the thrown value has no message), and the
outcome is a returned object, never a thrown failure. -/
theorem c7_transport_exception_caught (userId : String) (name bio : Option String)
    (errMsg : Option String) (hs : List (String × String)) :
    editAction (some userId) (some ⟨userId⟩) name bio (.exn errMsg) hs =
      (.ret (Json.obj [("error", Json.str (errMsg.getD "Failed to update profile"))]) [],
       [ApiCall.patchUser userId name bio]) := by
  simp [editAction]

/-- C8: submitting the same valid `{name, bio}` patch twice under the same
resolved identity and the same successful backend behaviour yields two
identical successful outcomes, each a redirect to `/users/<userId>`, and
each submission issues exactly the single PATCH call — the web layer adds
no further side effects on the repeat submission. -/
theorem c8_resubmission_idempotent (userId : String) (name bio : Option String)
    (payload : Json) (hs : List (String × String))
    (hok : isApiError payload = false) :
    (editAction (some userId) (some ⟨userId⟩) name bio (.resp true payload) hs,
     editAction (some userId) (some ⟨userId⟩) name bio (.resp true payload) hs) =
      ((.redirectTo ("/users/" ++ userId) [], [ApiCall.patchUser userId name bio]),
       (.redirectTo ("/users/" ++ userId) [], [ApiCall.patchUser userId name bio])) := by
  simp [editAction, hok]

/-- C8 witness: user "123" submitting the patch {name: "Aya", bio: "hi"}
twice against an ok backend response gets the same redirect to
`/users/123` both times, one PATCH call per submission. -/
theorem c8_resubmission_idempotent_witness :
    (editAction (some "123") (some ⟨"123"⟩) (some "Aya") (some "hi")
        (.resp true (Json.obj [("id", Json.str "123"), ("name", Json.str "Aya")])) [],
     editAction (some "123") (some ⟨"123"⟩) (some "Aya") (some "hi")
        (.resp true (Json.obj [("id", Json.str "123"), ("name", Json.str "Aya")])) []) =
      ((.redirectTo ("/users/" ++ "123") [],
        [ApiCall.patchUser "123" (some "Aya") (some "hi")]),
       (.redirectTo ("/users/" ++ "123") [],
        [ApiCall.patchUser "123" (some "Aya") (some "hi")])) :=
  c8_resubmission_idempotent "123" (some "Aya") (some "hi") _ [] rfl

/-- C9: in the profile-edit action, an ok response whose body still
classifies as an API error (it has a `code` field) yields the returned
object `{error: responseData.message}` with no redirect, and conversely
any redirect outcome of the action can only arise from an ok response
whose body does not classify as an API error, with the redirect going to
`/users/<userId>` with no headers. -/
theorem c9_ok_body_error_blocks_redirect (userId : String)
    (name bio : Option String) (payload : Json) (hs : List (String × String)) :
    (isApiError payload = true →
      editAction (some userId) (some ⟨userId⟩) name bio (.resp true payload) hs =
        (.ret (Json.obj [("error", getField payload "message")]) [],
         [ApiCall.patchUser userId name bio]))
    ∧ (∀ ok p hdrs,
      (editAction (some userId) (some ⟨userId⟩) name bio (.resp ok payload) hs).1 =
        .redirectTo p hdrs →
      ok = true ∧ isApiError payload = false ∧ p = "/users/" ++ userId ∧ hdrs = []) := by
  constructor
  · intro herr
    simp [editAction, herr]
  · intro ok p hdrs h
    cases ok with
    | false =>
      rcases hae : isApiError payload <;> simp [editAction, hae] at h
    | true =>
      rcases hae : isApiError payload with _ | _
      · simp [editAction, hae] at h
        exact ⟨rfl, rfl, h.1.symm, h.2⟩
      · simp [editAction, hae] at h

/-- C9 witness: with an ok backend response whose body is
`{code: "ValidationError", message: "name required"}` the action returns
`{error: "name required"}` and does not redirect; and a concrete redirect
outcome (ok response, clean body) indeed arises from an ok response with
a non-error body, targeting `/users/123`. -/
theorem c9_ok_body_error_blocks_redirect_witness :
    editAction (some "123") (some ⟨"123"⟩) (some "Aya") (some "hi")
        (.resp true (Json.obj [("code", Json.str "ValidationError"),
                               ("message", Json.str "name required")])) [] =
      (.ret (Json.obj [("error", Json.str "name required")]) [],
       [ApiCall.patchUser "123" (some "Aya") (some "hi")])
    ∧ (true = true
       ∧ isApiError (Json.obj [("id", Json.str "123")]) = false
       ∧ "/users/123" = "/users/" ++ "123"
       ∧ ([] : List (String × String)) = []) :=
  ⟨(c9_ok_body_error_blocks_redirect "123" (some "Aya") (some "hi")
      (Json.obj [("code", Json.str "ValidationError"),
                 ("message", Json.str "name required")]) []).1 rfl,
   (c9_ok_body_error_blocks_redirect "123" (some "Aya") (some "hi")
      (Json.obj [("id", Json.str "123")]) []).2 true "/users/123" [] rfl⟩

/-- C10: the user-detail route's `isErrorResponse` is not total over JSON
payloads — on a `null` body the `"error" in response` check throws a
`TypeError` instead of returning a classification — whereas the edit
route's `isApiError` returns `false` on `null` and on every non-object
input (booleans, numbers, strings, `undefined`). -/
theorem c10_classifier_totality_contrast :
    isErrorResponse Json.null = .error jsInTypeErrorMsg
    ∧ isApiError Json.null = false
    ∧ (∀ b, isApiError (Json.bool b) = false)
    ∧ (∀ n, isApiError (Json.num n) = false)
    ∧ (∀ s, isApiError (Json.str s) = false)
    ∧ isApiError Json.undefined = false :=
  ⟨rfl, rfl, fun _ => rfl, fun _ => rfl, fun _ => rfl, rfl⟩
